import Mathlib

/-!
# Verification of the `uploadAsset` cloud function (gcsFunctions)

A shallow embedding of `src/functions/uploadAsset.js` and the helpers it uses
from `src/shared/utils.js`. The handler accepts an HTTP request, dispatches on
the content-type header to a multipart/form-data branch or an
application/json (base64) branch, validates the `path` array, and writes the
payload to a Google Cloud Storage bucket, then makes it public and answers
with a JSON body.

Platform facilities are modelled explicitly:

* JavaScript values appearing in parsed request bodies are modelled by `JsVal`
  (the fragment that the handler inspects), with JS truthiness `JsVal.truthy`.
* Node's `Buffer.from(s, 'base64')` is modelled by `nodeBase64Decode`,
  following Node's lenient decoder: characters outside the base64 alphabet are
  skipped, decoding stops at the first `'='`, and a trailing group of 2 or 3
  sextets contributes 1 or 2 bytes.  For a string argument this decoder never
  throws.  Non-string arguments are modelled as throwing (`none`); every claim
  about the file field concerns string values.
* The platform `JSON.parse` applied to the multipart `path` form field is an
  oracle input of the request (`formPathParsed`), `none` modelling a throw.
* The object store is modelled by outcome oracles for `file.save` and
  `file.makePublic` (`StoreOutcome`), and the handler returns the list of
  store operations it performed (`StoreOp`), which can be replayed on a store
  state (`applyOps`).
-/

namespace GcsUpload

/-- JavaScript values, restricted to the fragment the handler inspects. -/
inductive JsVal where
  | jsUndefined : JsVal
  | null : JsVal
  | boolV : Bool → JsVal
  | num : Int → JsVal
  | str : String → JsVal
  | arr : List JsVal → JsVal


/-- JavaScript truthiness for the modelled fragment. -/
def JsVal.truthy : JsVal → Bool
  | .jsUndefined => false
  | .null => false
  | .boolV b => b
  | .num n => n != 0
  | .str s => s != ""
  | .arr _ => true

/-- The element list of an array value (`[]` for non-arrays). -/
def JsVal.elems : JsVal → List JsVal
  | .arr l => l
  | _ => []

/-- Field access on a parsed JSON object body: a missing field reads as
`undefined`, as in JavaScript destructuring. -/
def getField (body : List (String × JsVal)) (k : String) : JsVal :=
  match body.find? (fun p => p.1 == k) with
  | some p => p.2
  | none => .jsUndefined

/-- The JavaScript WhiteSpace and LineTerminator characters removed by
`String.prototype.trim`. -/
def isJsWhitespace (c : Char) : Bool :=
  c == ' ' || c == '\t' || c == '\n' || c == '\r' || c == '\x0b' || c == '\x0c' ||
  c == ' ' || c == '﻿' || c == ' ' ||
  (' ' ≤ c && c ≤ ' ') ||
  c == ' ' || c == ' ' || c == ' ' || c == ' ' || c == '　'

/-- Model of `String.prototype.trim`: strip leading and trailing JS
whitespace. -/
def jsTrim (s : String) : String :=
  ⟨((s.toList.dropWhile isJsWhitespace).reverse.dropWhile isJsWhitespace).reverse⟩

/-- Model of `String.prototype.includes` (used as `contentType.includes(...)`
at lines 62 and 169 of uploadAsset.js). -/
def jsIncludes (s sub : String) : Bool :=
  (List.range (s.toList.length + 1)).any
    (fun i => (s.toList.drop i).take sub.toList.length == sub.toList)

/-- The base64 alphabet table of Node's decoder (`unbase64`): also accepts the
URL-safe alphabet (`-` for 62, `_` for 63); all other characters map to
`none`. -/
def b64CharVal (c : Char) : Option Nat :=
  if 'A' ≤ c ∧ c ≤ 'Z' then some (c.toNat - 65)
  else if 'a' ≤ c ∧ c ≤ 'z' then some (c.toNat - 97 + 26)
  else if '0' ≤ c ∧ c ≤ '9' then some (c.toNat - 48 + 52)
  else if c = '+' ∨ c = '-' then some 62
  else if c = '/' ∨ c = '_' then some 63
  else none

/-- The sextet stream Node's decoder extracts from a base64 string: it stops
at the first `'='` and skips every character outside the alphabet. -/
def b64Sextets (s : String) : List Nat :=
  (s.toList.takeWhile (fun c => c ≠ '=')).filterMap b64CharVal

/-- Byte 1 of a base64 group: top 6 bits from `a`, top 2 of the next 4 from
`b`.  Table values are < 64, so results are < 256. -/
def b64Byte1 (a b : Nat) : Nat := a * 4 + b / 16

/-- Byte 2 of a base64 group. -/
def b64Byte2 (b c : Nat) : Nat := b % 16 * 16 + c / 4

/-- Byte 3 of a base64 group. -/
def b64Byte3 (c d : Nat) : Nat := c % 4 * 64 + d

/-- Decoding of the sextet stream: full groups of four sextets give three
bytes; a trailing pair gives one byte, a trailing triple two bytes, and a
single trailing sextet (or nothing) gives no byte — Node's behaviour. -/
def b64DecodeSextets : List Nat → List Nat
  | a :: b :: c :: d :: rest =>
      b64Byte1 a b :: b64Byte2 b c :: b64Byte3 c d :: b64DecodeSextets rest
  | [a, b] => [b64Byte1 a b]
  | [a, b, c] => [b64Byte1 a b, b64Byte2 b c]
  | _ => []

/-- Model of Node's `Buffer.from(s, 'base64')` for a string `s`: lenient, and
never throws. -/
def nodeBase64Decode (s : String) : List Nat :=
  b64DecodeSextets (b64Sextets s)

/-- Model of `Buffer.from(v, 'base64')` (line 185): a string decodes
leniently; other values are modelled as throwing (`none`).  (Node also
accepts arrays and buffer-like objects there; no claim involves them, and the
theorems about the decode step only assume string fields.) -/
def bufferFromBase64 : JsVal → Option (List Nat)
  | .str s => some (nodeBase64Decode s)
  | _ => none

/-! ## Responses (src/shared/utils.js) -/

/-- The data object of a successful upload response (lines 142-148 and
244-250 of uploadAsset.js). -/
structure UploadData where
  bucket : String
  filePath : String
  publicUrl : String
  size : Nat
  mimeType : JsVal


/-- JSON response bodies: the empty preflight body, `errorResponse` bodies
(`success: false`) and `successResponse` bodies (`success: true`). -/
inductive RespBody where
  | empty : RespBody
  | jsonErr : String → Option String → RespBody
  | jsonOk : Option String → Option UploadData → RespBody


/-- An HTTP response: headers set so far, status code, body. -/
structure Response where
  headers : List (String × String)
  status : Nat
  body : RespBody


/-- `setCorsHeaders` (utils.js lines 18-23); the handler calls it with the
default `allowedOrigins = '*'`. -/
def setCorsHeaders (allowedOrigins : String) : List (String × String) :=
  [("Access-Control-Allow-Origin", allowedOrigins),
   ("Access-Control-Allow-Methods", "GET, POST, PUT, DELETE, OPTIONS"),
   ("Access-Control-Allow-Headers", "Content-Type, Authorization"),
   ("Access-Control-Max-Age", "3600")]

/-- `errorResponse` (utils.js lines 65-76). -/
def errorResponse (hdrs : List (String × String)) (statusCode : Nat)
    (message : String) (details : Option String) : Response :=
  { headers := hdrs, status := statusCode, body := .jsonErr message details }

/-- `successResponse` (utils.js lines 81-95); always status 200. -/
def successResponse (hdrs : List (String × String)) (data : Option UploadData)
    (message : Option String) : Response :=
  { headers := hdrs, status := 200, body := .jsonOk message data }

/-! ## The object store model -/

/-- Outcome oracle for a store call (`file.save` / `file.makePublic`): either
it resolves, or it throws an error carrying an optional numeric `code`. -/
inductive StoreOutcome where
  | ok : StoreOutcome
  | err : Option Int → String → StoreOutcome


/-- A `file.save` call: key, payload bytes, content type, original file name
metadata. -/
structure StorePut where
  key : String
  bytes : List Nat
  contentType : JsVal
  originalFileName : JsVal


/-- The store operations the handler performs. -/
inductive StoreOp where
  | put : StorePut → StoreOp
  | makePublic : String → StoreOp


/-- A store state: keys to payload bytes. -/
abbrev Store := List (String × List Nat)

/-- Replaying one operation on a store state: `put` overwrites the key. -/
def applyOp (σ : Store) : StoreOp → Store
  | .put p => (p.key, p.bytes) :: σ.filter (fun kv => kv.1 ≠ p.key)
  | .makePublic _ => σ

/-- Replaying a list of operations. -/
def applyOps (σ : Store) (ops : List StoreOp) : Store :=
  ops.foldl applyOp σ

def BUCKET_NAME : String := "espaze-seller-product-assets"

/-- The catch handler duplicated verbatim at lines 150-164 (multipart) and
252-266 (JSON): error code 404 yields HTTP 404 naming the bucket, 403 yields
HTTP 403, anything else HTTP 500 with the error message as details. -/
def storeCatch (hdrs : List (String × String)) (code : Option Int)
    (msg : String) : Response :=
  if code = some 404 then
    errorResponse hdrs 404
      "Bucket 'espaze-seller-product-assets' not found. Please create it first." none
  else if code = some 403 then
    errorResponse hdrs 403 "Permission denied. Check service account permissions." none
  else
    errorResponse hdrs 500 "Failed to upload file" (some msg)

/-- The save / makePublic / success tail, duplicated verbatim at lines
114-148 (multipart) and 216-250 (JSON): save the buffer (recording a `put` on
success), make the object public, and answer 200; a throw from either call is
handled by `storeCatch`. -/
def storeAndRespond (hdrs : List (String × String)) (fullPath : String)
    (fileBuffer : List Nat) (mimeType fileName : JsVal)
    (saveO pubO : StoreOutcome) : Response × List StoreOp :=
  match saveO with
  | .err c m => (storeCatch hdrs c m, [])
  | .ok =>
    let putOp := StoreOp.put ⟨fullPath, fileBuffer, mimeType, fileName⟩
    match pubO with
    | .err c m => (storeCatch hdrs c m, [putOp])
    | .ok =>
      (successResponse hdrs
        (some { bucket := BUCKET_NAME
                filePath := fullPath
                publicUrl :=
                  "https://storage.googleapis.com/" ++ BUCKET_NAME ++ "/" ++ fullPath
                size := fileBuffer.length
                mimeType := mimeType })
        (some "File uploaded successfully"),
       [putOp, StoreOp.makePublic fullPath])

/-! ## Requests and path validation -/

/-- `req.file` as provided by multer's memory storage. -/
structure MultipartFile where
  buffer : List Nat
  originalname : String
  mimetype : String


/-- An HTTP request, after platform parsing.  The multipart fields model what
multer produces; the JSON fields model the parsed `application/json` body.
The handler only reads the group matching the branch it takes. -/
structure HttpRequest where
  method : String
  /-- `req.get('content-type') || ''`: a missing header is the empty string. -/
  contentType : String
  /-- Multer callback error (`some message` when multer failed). -/
  multerErr : Option String
  /-- The raw `path` form field (`req.body.path`), absent or a string. -/
  formPath : Option String
  /-- Result of the platform `JSON.parse` on the path form field; `none`
  models a parse throw. -/
  formPathParsed : Option JsVal
  /-- `req.file` set by multer. -/
  file : Option MultipartFile
  /-- Parsed JSON body fields for the application/json branch. -/
  jsonBody : List (String × JsVal)


/-- Truthiness of `req.body.path` in the multipart branch (line 74): absent
or the empty string is falsy. -/
def formPathTruthy : Option String → Bool
  | none => false
  | some s => s != ""

/-- `Array.isArray(path) && path.length !== 0`, the negation of the check at
lines 98 / 194. -/
def pathIsNonEmptyArray : JsVal → Bool
  | .arr l => !l.isEmpty
  | _ => false

/-- One segment passes the loop check at lines 103-107 / 199-203:
`typeof segment === 'string' && segment.trim() !== ''`. -/
def segOk : JsVal → Bool
  | .str s => jsTrim s != ""
  | _ => false

/-- `path.join('/')` (lines 110 / 211).  The handler only calls it after
validation has ensured every element is a string, so only the string case is
reachable. -/
def joinPath (l : List JsVal) : String :=
  String.intercalate "/" (l.map (fun v => match v with | .str s => s | _ => ""))

/-- The key a request's validated path produces. -/
def joinedKey (v : JsVal) : String := joinPath v.elems

/-- The multipart/form-data branch (lines 66-165). -/
def multipartBranch (hdrs : List (String × String)) (req : HttpRequest)
    (saveO pubO : StoreOutcome) : Response × List StoreOp :=
  match req.multerErr with
  | some m => (errorResponse hdrs 400 "File upload error" (some m), [])
  | none =>
    if !formPathTruthy req.formPath then
      (errorResponse hdrs 400 "Missing required field: path" none, [])
    else
      match req.formPathParsed with
      | none =>
        (errorResponse hdrs 400
          "Invalid path format. Must be a JSON array like [\"folder\", \"file.png\"]" none, [])
      | some path =>
        match req.file with
        | none => (errorResponse hdrs 400 "Missing required field: file" none, [])
        | some f =>
          if !pathIsNonEmptyArray path then
            (errorResponse hdrs 400 "path must be a non-empty array" none, [])
          else if !(path.elems.all segOk) then
            (errorResponse hdrs 400 "All path segments must be non-empty strings" none, [])
          else
            storeAndRespond hdrs (joinPath path.elems) f.buffer
              (.str f.mimetype) (.str f.originalname) saveO pubO

/-- The application/json branch (lines 172-267). -/
def jsonBranch (hdrs : List (String × String)) (req : HttpRequest)
    (saveO pubO : StoreOutcome) : Response × List StoreOp :=
  let pathArray := getField req.jsonBody "path"
  let base64File := getField req.jsonBody "file"
  let providedFileName := getField req.jsonBody "fileName"
  let providedMimeType := getField req.jsonBody "mimeType"
  if !pathArray.truthy || !base64File.truthy then
    (errorResponse hdrs 400 "Missing required fields: path and file" none, [])
  else
    match bufferFromBase64 base64File with
    | none => (errorResponse hdrs 400 "Invalid base64 file data" none, [])
    | some fileBuffer =>
      let fileName := if providedFileName.truthy then providedFileName else .str "file"
      let mimeType :=
        if providedMimeType.truthy then providedMimeType
        else .str "application/octet-stream"
      if !pathIsNonEmptyArray pathArray then
        (errorResponse hdrs 400 "path must be a non-empty array" none, [])
      else if !(pathArray.elems.all segOk) then
        (errorResponse hdrs 400 "All path segments must be non-empty strings" none, [])
      else if fileBuffer.isEmpty then
        (errorResponse hdrs 400 "File is empty or invalid" none, [])
      else
        storeAndRespond hdrs (joinPath pathArray.elems) fileBuffer
          mimeType fileName saveO pubO

/-- The `uploadAsset` HTTP handler (lines 41-272): set CORS headers, answer
preflight, reject non-POST, dispatch on content-type. -/
def uploadAsset (req : HttpRequest) (saveO pubO : StoreOutcome) :
    Response × List StoreOp :=
  let hdrs := setCorsHeaders "*"
  if req.method = "OPTIONS" then
    ({ headers := hdrs, status := 204, body := .empty }, [])
  else if req.method ≠ "POST" then
    (errorResponse hdrs 405 "Method not allowed. Use POST." none, [])
  else if jsIncludes req.contentType "multipart/form-data" then
    multipartBranch hdrs req saveO pubO
  else if jsIncludes req.contentType "application/json" then
    jsonBranch hdrs req saveO pubO
  else
    (errorResponse hdrs 400
      "Content-Type must be multipart/form-data or application/json" none, [])

/-! ## Observations on responses, and spec-side characterizations -/

/-- The response body is one of the two path-validation error bodies. -/
def isPathError : RespBody → Bool
  | .jsonErr "path must be a non-empty array" none => true
  | .jsonErr "All path segments must be non-empty strings" none => true
  | _ => false

/-- The data object carried by a success body. -/
def respData : RespBody → Option UploadData
  | .jsonOk _ d => d
  | _ => none

/-- The body reports success (`success: true`). -/
def isSuccessBody : RespBody → Bool
  | .jsonOk _ _ => true
  | _ => false

/-- Spec-side characterization of an acceptable path, transcribed from the
spec: a non-empty array all of whose elements are strings that are non-empty
after trimming whitespace. -/
def specPathOk : JsVal → Bool
  | .arr l =>
      !l.isEmpty && l.all (fun e => match e with | .str s => jsTrim s != "" | _ => false)
  | _ => false

/-- Spec-side strict base64 well-formedness (RFC 4648): length a multiple of
four, all characters in the standard alphabet, with up to two `'='` padding
characters at the very end. -/
def isStrictBase64 (s : String) : Bool :=
  let cs := s.toList
  let core := cs.takeWhile (fun c => c ≠ '=')
  let pad := cs.drop core.length
  decide (cs.length % 4 = 0) &&
    core.all (fun c =>
      ('A' ≤ c && c ≤ 'Z') || ('a' ≤ c && c ≤ 'z') ||
      ('0' ≤ c && c ≤ '9') || c == '+' || c == '/') &&
    pad.all (fun c => c == '=') && decide (pad.length ≤ 2)

/-- The request is a POST that reaches the multipart branch's path
validation, with `v` the parsed path form field. -/
def reachesValidationMultipart (req : HttpRequest) (v : JsVal) : Prop :=
  req.method = "POST" ∧
  jsIncludes req.contentType "multipart/form-data" = true ∧
  req.multerErr = none ∧
  formPathTruthy req.formPath = true ∧
  req.formPathParsed = some v ∧
  req.file.isSome = true

/-- The request is a POST that reaches the JSON branch's path validation,
with `v` the `path` field of the body. -/
def reachesValidationJson (req : HttpRequest) (v : JsVal) : Prop :=
  req.method = "POST" ∧
  jsIncludes req.contentType "multipart/form-data" = false ∧
  jsIncludes req.contentType "application/json" = true ∧
  getField req.jsonBody "path" = v ∧
  v.truthy = true ∧
  (getField req.jsonBody "file").truthy = true ∧
  (bufferFromBase64 (getField req.jsonBody "file")).isSome = true

/-- The request reaches path validation in one of the two branches, with `v`
the path value the branch validates. -/
def reachesValidation (req : HttpRequest) (v : JsVal) : Prop :=
  reachesValidationMultipart req v ∨ reachesValidationJson req v

/-! ## Evaluation lemmas -/

/-- Per-segment check as a named function equals the inline lambda of
`specPathOk`. -/
lemma segOk_eq_specSeg (e : JsVal) :
    segOk e = (match e with | .str s => jsTrim s != "" | _ => false) := by
  cases e <;> rfl

/-- `specPathOk` coincides with the conjunction of the two code-side checks. -/
lemma specPathOk_eq (v : JsVal) :
    specPathOk v = (pathIsNonEmptyArray v && v.elems.all segOk) := by
  have hfun : (fun e => match e with | JsVal.str s => jsTrim s != "" | _ => false) = segOk :=
    funext (fun e => (segOk_eq_specSeg e).symm)
  cases v <;> simp [specPathOk, pathIsNonEmptyArray, JsVal.elems, hfun]

/-- Under a POST with a multipart content-type, the handler runs the
multipart branch. -/
lemma uploadAsset_multipart (req : HttpRequest) (sO pO : StoreOutcome)
    (hm : req.method = "POST")
    (hct : jsIncludes req.contentType "multipart/form-data" = true) :
    uploadAsset req sO pO = multipartBranch (setCorsHeaders "*") req sO pO := by
  unfold uploadAsset
  rw [hm, hct]
  simp

/-- Under a POST with a JSON (and not multipart) content-type, the handler
runs the JSON branch. -/
lemma uploadAsset_json (req : HttpRequest) (sO pO : StoreOutcome)
    (hm : req.method = "POST")
    (hct : jsIncludes req.contentType "multipart/form-data" = false)
    (hj : jsIncludes req.contentType "application/json" = true) :
    uploadAsset req sO pO = jsonBranch (setCorsHeaders "*") req sO pO := by
  unfold uploadAsset
  rw [hm, hct, hj]
  simp

/-- Shape of the multipart branch once its preliminary checks pass. -/
lemma multipartBranch_eval (hdrs : List (String × String)) (req : HttpRequest)
    (sO pO : StoreOutcome) (v : JsVal) (f : MultipartFile)
    (he : req.multerErr = none) (hf : formPathTruthy req.formPath = true)
    (hp : req.formPathParsed = some v) (hfile : req.file = some f) :
    multipartBranch hdrs req sO pO =
      if !pathIsNonEmptyArray v then
        (errorResponse hdrs 400 "path must be a non-empty array" none, [])
      else if !(v.elems.all segOk) then
        (errorResponse hdrs 400 "All path segments must be non-empty strings" none, [])
      else
        storeAndRespond hdrs (joinPath v.elems) f.buffer
          (.str f.mimetype) (.str f.originalname) sO pO := by
  unfold multipartBranch
  rw [he, hf, hp, hfile]
  simp

/-- Shape of the JSON branch once its preliminary checks pass and the base64
field decodes to `buf`. -/
lemma jsonBranch_eval (hdrs : List (String × String)) (req : HttpRequest)
    (sO pO : StoreOutcome) (v : JsVal) (buf : List Nat)
    (hpv : getField req.jsonBody "path" = v)
    (ht : v.truthy = true)
    (hft : (getField req.jsonBody "file").truthy = true)
    (hb : bufferFromBase64 (getField req.jsonBody "file") = some buf) :
    jsonBranch hdrs req sO pO =
      if !pathIsNonEmptyArray v then
        (errorResponse hdrs 400 "path must be a non-empty array" none, [])
      else if !(v.elems.all segOk) then
        (errorResponse hdrs 400 "All path segments must be non-empty strings" none, [])
      else if buf.isEmpty then
        (errorResponse hdrs 400 "File is empty or invalid" none, [])
      else
        storeAndRespond hdrs (joinPath v.elems) buf
          (if (getField req.jsonBody "mimeType").truthy then
            getField req.jsonBody "mimeType" else .str "application/octet-stream")
          (if (getField req.jsonBody "fileName").truthy then
            getField req.jsonBody "fileName" else .str "file") sO pO := by
  unfold jsonBranch
  dsimp only
  rw [hpv, ht, hft, hb]
  simp

/-- The catch handler's body is never a path-validation error. -/
lemma storeCatch_not_pathError (hdrs : List (String × String)) (c : Option Int)
    (m : String) : isPathError (storeCatch hdrs c m).body = false := by
  unfold storeCatch
  split
  · rfl
  · split
    · rfl
    · rfl

/-- The catch handler carries no data object. -/
lemma storeCatch_respData (hdrs : List (String × String)) (c : Option Int)
    (m : String) : respData (storeCatch hdrs c m).body = none := by
  unfold storeCatch
  split
  · rfl
  · split
    · rfl
    · rfl

/-- The catch handler never reports success. -/
lemma storeCatch_not_success (hdrs : List (String × String)) (c : Option Int)
    (m : String) : isSuccessBody (storeCatch hdrs c m).body = false := by
  unfold storeCatch
  split
  · rfl
  · split
    · rfl
    · rfl

/-- The catch handler's status mapping: 404 and 403 pass through, everything
else becomes 500. -/
lemma storeCatch_status (hdrs : List (String × String)) (c : Option Int)
    (m : String) :
    (storeCatch hdrs c m).status =
      if c = some 404 then 404 else if c = some 403 then 403 else 500 := by
  unfold storeCatch
  split
  · rfl
  · split
    · rfl
    · rfl

/-- The catch handler keeps its headers. -/
lemma storeCatch_headers (hdrs : List (String × String)) (c : Option Int)
    (m : String) : (storeCatch hdrs c m).headers = hdrs := by
  unfold storeCatch
  split
  · rfl
  · split
    · rfl
    · rfl

/-- The store tail never yields a path-validation error body. -/
lemma storeAndRespond_not_pathError (hdrs : List (String × String)) (fp : String)
    (buf : List Nat) (mt fn : JsVal) (sO pO : StoreOutcome) :
    isPathError (storeAndRespond hdrs fp buf mt fn sO pO).1.body = false := by
  unfold storeAndRespond
  cases sO <;> cases pO
  · rfl
  · exact storeCatch_not_pathError hdrs _ _
  · exact storeCatch_not_pathError hdrs _ _
  · exact storeCatch_not_pathError hdrs _ _

/-- Any data object the store tail answers with carries `fp` as `filePath`
and `buf.length` as `size`. -/
lemma storeAndRespond_data (hdrs : List (String × String)) (fp : String)
    (buf : List Nat) (mt fn : JsVal) (sO pO : StoreOutcome) (d : UploadData)
    (h : respData (storeAndRespond hdrs fp buf mt fn sO pO).1.body = some d) :
    d.filePath = fp ∧ d.size = buf.length := by
  unfold storeAndRespond at h
  cases sO <;> cases pO <;>
    first
      | (rw [storeCatch_respData] at h; exact absurd h (by simp))
      | (simp only [respData, successResponse, Option.some_inj] at h
         rw [← h]
         exact ⟨rfl, rfl⟩)

/-- Every `put` the store tail performs uses key `fp` and payload `buf`. -/
lemma storeAndRespond_puts (hdrs : List (String × String)) (fp : String)
    (buf : List Nat) (mt fn : JsVal) (sO pO : StoreOutcome) (p : StorePut)
    (h : StoreOp.put p ∈ (storeAndRespond hdrs fp buf mt fn sO pO).2) :
    p.key = fp ∧ p.bytes = buf := by
  unfold storeAndRespond at h
  cases sO <;> cases pO <;> simp at h <;>
    · subst h
      exact ⟨rfl, rfl⟩

/-- Core behaviour of the path-validation gate, shared by both branches: a
request that reaches validation proceeds past it exactly when the provided
path is a non-empty array of trimmed-non-empty strings, and a valid path
makes every echoed `filePath` and every stored key equal to the `/`-join of
the segments. -/
lemma uploadAsset_validation (req : HttpRequest) (sO pO : StoreOutcome) (v : JsVal)
    (h : reachesValidation req v) :
    (isPathError (uploadAsset req sO pO).1.body = false ↔ specPathOk v = true) ∧
    (specPathOk v = true →
      (∀ d, respData (uploadAsset req sO pO).1.body = some d → d.filePath = joinedKey v) ∧
      (∀ p, StoreOp.put p ∈ (uploadAsset req sO pO).2 → p.key = joinedKey v)) := by
  have e1 : ∀ hdrs, isPathError
      (errorResponse hdrs 400 "path must be a non-empty array" none).body = true :=
    fun _ => rfl
  have e2 : ∀ hdrs, isPathError
      (errorResponse hdrs 400 "All path segments must be non-empty strings" none).body = true :=
    fun _ => rfl
  rcases h with hM | hJ
  · obtain ⟨hm, hct, he, hf, hp, hfs⟩ := hM
    obtain ⟨f, hfile⟩ := Option.isSome_iff_exists.mp hfs
    rw [uploadAsset_multipart req sO pO hm hct,
        multipartBranch_eval (setCorsHeaders "*") req sO pO v f he hf hp hfile]
    rw [specPathOk_eq]
    by_cases h1 : pathIsNonEmptyArray v
    · by_cases h2 : v.elems.all segOk
      · simp only [h1, h2, Bool.not_true, Bool.false_eq_true, if_false, Bool.and_self]
        refine ⟨by simp [storeAndRespond_not_pathError], fun _ => ⟨?_, ?_⟩⟩
        · exact fun d hd => (storeAndRespond_data _ _ _ _ _ _ _ d hd).1
        · exact fun p hp' => (storeAndRespond_puts _ _ _ _ _ _ _ p hp').1
      · rw [Bool.not_eq_true] at h2
        simp [h1, h2, e2]
    · rw [Bool.not_eq_true] at h1
      simp [h1, e1]
  · obtain ⟨hm, hct, hj, hpv, ht, hft, hbs⟩ := hJ
    obtain ⟨buf, hb⟩ := Option.isSome_iff_exists.mp hbs
    rw [uploadAsset_json req sO pO hm hct hj,
        jsonBranch_eval (setCorsHeaders "*") req sO pO v buf hpv ht hft hb]
    rw [specPathOk_eq]
    by_cases h1 : pathIsNonEmptyArray v
    · by_cases h2 : v.elems.all segOk
      · simp only [h1, h2, Bool.not_true, Bool.false_eq_true, if_false, Bool.and_self]
        by_cases h3 : buf.isEmpty
        · simp only [h3, if_true]
          exact ⟨by simp [isPathError, errorResponse],
            fun _ => ⟨by simp [respData, errorResponse], by simp⟩⟩
        · rw [Bool.not_eq_true] at h3
          simp only [h3, Bool.false_eq_true, if_false]
          refine ⟨by simp [storeAndRespond_not_pathError], fun _ => ⟨?_, ?_⟩⟩
          · exact fun d hd => (storeAndRespond_data _ _ _ _ _ _ _ d hd).1
          · exact fun p hp' => (storeAndRespond_puts _ _ _ _ _ _ _ p hp').1
      · rw [Bool.not_eq_true] at h2
        simp [h1, h2, e2]
    · rw [Bool.not_eq_true] at h1
      simp [h1, e1]

/-- The request reaches the store call (`file.save`) in one of the two
branches, with `v` the validated path value. -/
def reachesStore (req : HttpRequest) (v : JsVal) : Prop :=
  specPathOk v = true ∧
  (reachesValidationMultipart req v ∨
    (reachesValidationJson req v ∧
      ∃ buf, bufferFromBase64 (getField req.jsonBody "file") = some buf ∧ buf ≠ []))

/-- A request that reaches the store call hands the store tail the joined
key: the handler is the store tail applied to `joinedKey v` and the decoded
payload. -/
lemma uploadAsset_reachesStore (req : HttpRequest) (sO pO : StoreOutcome)
    (v : JsVal) (h : reachesStore req v) :
    ∃ buf mt fn, uploadAsset req sO pO =
      storeAndRespond (setCorsHeaders "*") (joinedKey v) buf mt fn sO pO := by
  obtain ⟨hok, hM | hJ⟩ := h
  · obtain ⟨hm, hct, he, hf, hp, hfs⟩ := hM
    obtain ⟨f, hfile⟩ := Option.isSome_iff_exists.mp hfs
    rw [specPathOk_eq, Bool.and_eq_true] at hok
    refine ⟨f.buffer, .str f.mimetype, .str f.originalname, ?_⟩
    rw [uploadAsset_multipart req sO pO hm hct,
        multipartBranch_eval (setCorsHeaders "*") req sO pO v f he hf hp hfile]
    simp [hok.1, hok.2, joinedKey]
  · obtain ⟨⟨hm, hct, hj, hpv, ht, hft, _⟩, buf, hb, hbne⟩ := hJ
    rw [specPathOk_eq, Bool.and_eq_true] at hok
    refine ⟨buf,
      (if (getField req.jsonBody "mimeType").truthy then getField req.jsonBody "mimeType"
        else .str "application/octet-stream"),
      (if (getField req.jsonBody "fileName").truthy then getField req.jsonBody "fileName"
        else .str "file"), ?_⟩
    rw [uploadAsset_json req sO pO hm hct hj,
        jsonBranch_eval (setCorsHeaders "*") req sO pO v buf hpv ht hft hb]
    have h3 : buf.isEmpty = false := by
      simp [List.isEmpty_iff, hbne]
    simp [hok.1, hok.2, h3, joinedKey]

/-- The store tail keeps its headers. -/
lemma storeAndRespond_headers (hdrs : List (String × String)) (fp : String)
    (buf : List Nat) (mt fn : JsVal) (sO pO : StoreOutcome) :
    (storeAndRespond hdrs fp buf mt fn sO pO).1.headers = hdrs := by
  unfold storeAndRespond
  cases sO <;> cases pO
  · rfl
  · exact storeCatch_headers hdrs _ _
  · exact storeCatch_headers hdrs _ _
  · exact storeCatch_headers hdrs _ _

/-- The multipart branch keeps its headers. -/
lemma multipartBranch_headers (hdrs : List (String × String)) (req : HttpRequest)
    (sO pO : StoreOutcome) :
    (multipartBranch hdrs req sO pO).1.headers = hdrs := by
  unfold multipartBranch
  split
  · rfl
  · split
    · rfl
    · split
      · rfl
      · split
        · rfl
        · split
          · rfl
          · split
            · rfl
            · exact storeAndRespond_headers hdrs _ _ _ _ sO pO

/-- The JSON branch keeps its headers. -/
lemma jsonBranch_headers (hdrs : List (String × String)) (req : HttpRequest)
    (sO pO : StoreOutcome) :
    (jsonBranch hdrs req sO pO).1.headers = hdrs := by
  unfold jsonBranch
  dsimp only
  split
  · rfl
  · split
    · rfl
    · split
      · rfl
      · split
        · rfl
        · split
          · rfl
          · exact storeAndRespond_headers hdrs _ _ _ _ sO pO

/-- Every response of the handler keeps the CORS headers set at entry. -/
lemma uploadAsset_headers (req : HttpRequest) (sO pO : StoreOutcome) :
    (uploadAsset req sO pO).1.headers = setCorsHeaders "*" := by
  unfold uploadAsset
  dsimp only
  split
  · rfl
  · split
    · rfl
    · split
      · exact multipartBranch_headers _ req sO pO
      · split
        · exact jsonBranch_headers _ req sO pO
        · rfl

/-- The key of a path of plain string segments is their `/`-join, in input
order. -/
lemma joinedKey_strings (segs : List String) :
    joinedKey (.arr (segs.map .str)) = String.intercalate "/" segs := by
  simp only [joinedKey, joinPath, JsVal.elems, List.map_map]
  have hfun : ((fun v => match v with | JsVal.str s => s | _ => "") ∘ JsVal.str) =
      (id : String → String) := funext fun s => rfl
  rw [hfun, List.map_id]

/-- A non-empty list of trimmed-non-empty string segments satisfies the path
characterization. -/
lemma specPathOk_strings (segs : List String) (hne : segs ≠ [])
    (hall : ∀ s ∈ segs, jsTrim s ≠ "") :
    specPathOk (.arr (segs.map .str)) = true := by
  simp only [specPathOk, Bool.and_eq_true]
  refine ⟨?_, ?_⟩
  · cases segs with
    | nil => exact absurd rfl hne
    | cons a t => rfl
  · rw [List.all_eq_true]
    intro e he
    rw [List.mem_map] at he
    obtain ⟨s, hs, rfl⟩ := he
    simpa using hall s hs

/-! ## The claims -/

/-- C1: for every request that reaches path validation (in either branch),
with `v` the provided path value, processing proceeds past validation if and
only if `v` is a non-empty array all of whose elements are strings that are
non-empty after trimming whitespace; when validation succeeds, every echoed
`filePath` and every stored key is exactly the segments joined with `/`,
preserving input order. -/
theorem c1_path_validation_iff_join (req : HttpRequest) (sO pO : StoreOutcome)
    (v : JsVal) (h : reachesValidation req v) :
    (isPathError (uploadAsset req sO pO).1.body = false ↔ specPathOk v = true) ∧
    (specPathOk v = true →
      (∀ d, respData (uploadAsset req sO pO).1.body = some d →
        d.filePath = joinedKey v) ∧
      (∀ p, StoreOp.put p ∈ (uploadAsset req sO pO).2 → p.key = joinedKey v)) ∧
    (∀ segs : List String, v = .arr (segs.map .str) →
      joinedKey v = String.intercalate "/" segs) :=
  ⟨(uploadAsset_validation req sO pO v h).1,
   (uploadAsset_validation req sO pO v h).2,
   fun segs hv => by rw [hv, joinedKey_strings]⟩

/-- Witness for C1: a concrete JSON request with path `["a","b.png"]` reaches
validation, and the theorem's conclusions hold there. -/
theorem c1_path_validation_iff_join_witness :
    reachesValidation
      { method := "POST", contentType := "application/json",
        multerErr := none, formPath := none, formPathParsed := none, file := none,
        jsonBody := [("path", .arr [.str "a", .str "b.png"]), ("file", .str "QUJD")] }
      (.arr [.str "a", .str "b.png"]) ∧
    (isPathError (uploadAsset
      { method := "POST", contentType := "application/json",
        multerErr := none, formPath := none, formPathParsed := none, file := none,
        jsonBody := [("path", .arr [.str "a", .str "b.png"]), ("file", .str "QUJD")] }
      .ok .ok).1.body = false ↔
      specPathOk (.arr [.str "a", .str "b.png"]) = true) :=
  ⟨Or.inr ⟨rfl, rfl, rfl, rfl, rfl, rfl, rfl⟩,
   (c1_path_validation_iff_join
     { method := "POST", contentType := "application/json",
       multerErr := none, formPath := none, formPathParsed := none, file := none,
       jsonBody := [("path", .arr [.str "a", .str "b.png"]), ("file", .str "QUJD")] }
     .ok .ok (.arr [.str "a", .str "b.png"])
     (Or.inr ⟨rfl, rfl, rfl, rfl, rfl, rfl, rfl⟩)).1⟩

/-- C2 (failing input): the string `"!!ab"` is not well-formed base64, yet a
JSON-mode request carrying it as the `file` field is not rejected: Node's
lenient decoder (modelled by `nodeBase64Decode`) silently turns it into the
single byte `0x69`, and the handler stores that byte and answers 200 — the
`Invalid base64 file data` catch at lines 184-188 is unreachable for string
input because `Buffer.from(string, 'base64')` never throws. -/
theorem c2_malformed_base64_is_stored :
    isStrictBase64 "!!ab" = false ∧
    uploadAsset
      { method := "POST", contentType := "application/json",
        multerErr := none, formPath := none, formPathParsed := none, file := none,
        jsonBody := [("path", .arr [.str "x.txt"]), ("file", .str "!!ab")] }
      .ok .ok =
    (successResponse (setCorsHeaders "*")
      (some { bucket := BUCKET_NAME
              filePath := "x.txt"
              publicUrl := "https://storage.googleapis.com/espaze-seller-product-assets/x.txt"
              size := 1
              mimeType := .str "application/octet-stream" })
      (some "File uploaded successfully"),
     [StoreOp.put ⟨"x.txt", [105], .str "application/octet-stream", .str "file"⟩,
      StoreOp.makePublic "x.txt"]) :=
  ⟨rfl, rfl⟩

/-- C3 (counterexample): the scenario as claimed, with the base64 payload in
a field named `fileData`, does not succeed — the code destructures the field
named `file` (line 174), so the request fails the missing-fields check with
HTTP 400 and nothing is stored. -/
theorem c3_counterexample_fileData_field :
    uploadAsset
      { method := "POST", contentType := "application/json",
        multerErr := none, formPath := none, formPathParsed := none, file := none,
        jsonBody := [("path", .arr [.str "test", .str "hello.txt"]),
                     ("fileData", .str "SGVsbG8gV29ybGQ="),
                     ("mimeType", .str "text/plain")] }
      .ok .ok =
    (errorResponse (setCorsHeaders "*") 400
      "Missing required fields: path and file" none, []) := rfl

/-- C3 (amended): with the base64 encoding of `"Hello World"` in the field
the code actually reads (`file`), the scenario succeeds: HTTP 200,
`data.filePath = "test/hello.txt"`, `data.size = 11`. -/
theorem c3_amended_scenario :
    uploadAsset
      { method := "POST", contentType := "application/json",
        multerErr := none, formPath := none, formPathParsed := none, file := none,
        jsonBody := [("path", .arr [.str "test", .str "hello.txt"]),
                     ("file", .str "SGVsbG8gV29ybGQ="),
                     ("mimeType", .str "text/plain")] }
      .ok .ok =
    (successResponse (setCorsHeaders "*")
      (some { bucket := BUCKET_NAME
              filePath := "test/hello.txt"
              publicUrl :=
                "https://storage.googleapis.com/espaze-seller-product-assets/test/hello.txt"
              size := 11
              mimeType := .str "text/plain" })
      (some "File uploaded successfully"),
     [StoreOp.put ⟨"test/hello.txt",
        [72, 101, 108, 108, 111, 32, 87, 111, 114, 108, 100],
        .str "text/plain", .str "file"⟩,
      StoreOp.makePublic "test/hello.txt"]) := rfl

/-- C4 (counterexample): a multipart upload with a zero-byte file succeeds
and stores an empty payload — the multipart branch has no emptiness check, so
the claimed invariant (every successful upload stores a non-empty payload)
fails. -/
theorem c4_counterexample_empty_multipart :
    uploadAsset
      { method := "POST", contentType := "multipart/form-data",
        multerErr := none, formPath := some "[\"a\",\"b.txt\"]",
        formPathParsed := some (.arr [.str "a", .str "b.txt"]),
        file := some { buffer := [], originalname := "empty.bin",
                       mimetype := "application/octet-stream" },
        jsonBody := [] }
      .ok .ok =
    (successResponse (setCorsHeaders "*")
      (some { bucket := BUCKET_NAME
              filePath := "a/b.txt"
              publicUrl :=
                "https://storage.googleapis.com/espaze-seller-product-assets/a/b.txt"
              size := 0
              mimeType := .str "application/octet-stream" })
      (some "File uploaded successfully"),
     [StoreOp.put ⟨"a/b.txt", [], .str "application/octet-stream", .str "empty.bin"⟩,
      StoreOp.makePublic "a/b.txt"]) := rfl

/-- C4 (amended): only the JSON branch rejects an empty decoded payload
before any store write; the multipart branch stores the uploaded buffer
unchanged, with no emptiness check (so an empty multipart payload is
stored). -/
theorem c4_amended_empty_payload (req : HttpRequest) (sO pO : StoreOutcome)
    (v : JsVal) :
    (reachesValidationJson req v → specPathOk v = true →
      bufferFromBase64 (getField req.jsonBody "file") = some [] →
      uploadAsset req sO pO =
        (errorResponse (setCorsHeaders "*") 400 "File is empty or invalid" none, [])) ∧
    (∀ f, reachesValidationMultipart req v → specPathOk v = true →
      req.file = some f →
      uploadAsset req sO pO =
        storeAndRespond (setCorsHeaders "*") (joinedKey v) f.buffer
          (.str f.mimetype) (.str f.originalname) sO pO) := by
  constructor
  · rintro ⟨hm, hct, hj, hpv, ht, hft, -⟩ hok hb
    rw [specPathOk_eq, Bool.and_eq_true] at hok
    rw [uploadAsset_json req sO pO hm hct hj,
        jsonBranch_eval (setCorsHeaders "*") req sO pO v [] hpv ht hft hb]
    simp [hok.1, hok.2]
  · rintro f ⟨hm, hct, he, hf, hp, -⟩ hok hfile
    rw [specPathOk_eq, Bool.and_eq_true] at hok
    rw [uploadAsset_multipart req sO pO hm hct,
        multipartBranch_eval (setCorsHeaders "*") req sO pO v f he hf hp hfile]
    simp [hok.1, hok.2, joinedKey]

/-- Witness for C4 (amended): a JSON request whose `file` field `"!"`
decodes to the empty payload is rejected with 400 and no write; a multipart
request with an empty buffer reaches the store tail with that empty
buffer. -/
theorem c4_amended_empty_payload_witness :
    (reachesValidationJson
        { method := "POST", contentType := "application/json",
          multerErr := none, formPath := none, formPathParsed := none, file := none,
          jsonBody := [("path", .arr [.str "x.txt"]), ("file", .str "!")] }
        (.arr [.str "x.txt"]) ∧
      uploadAsset
        { method := "POST", contentType := "application/json",
          multerErr := none, formPath := none, formPathParsed := none, file := none,
          jsonBody := [("path", .arr [.str "x.txt"]), ("file", .str "!")] }
        .ok .ok =
      (errorResponse (setCorsHeaders "*") 400 "File is empty or invalid" none, [])) ∧
    (reachesValidationMultipart
        { method := "POST", contentType := "multipart/form-data",
          multerErr := none, formPath := some "[\"a\",\"b.txt\"]",
          formPathParsed := some (.arr [.str "a", .str "b.txt"]),
          file := some { buffer := [], originalname := "empty.bin",
                         mimetype := "application/octet-stream" },
          jsonBody := [] }
        (.arr [.str "a", .str "b.txt"]) ∧
      uploadAsset
        { method := "POST", contentType := "multipart/form-data",
          multerErr := none, formPath := some "[\"a\",\"b.txt\"]",
          formPathParsed := some (.arr [.str "a", .str "b.txt"]),
          file := some { buffer := [], originalname := "empty.bin",
                         mimetype := "application/octet-stream" },
          jsonBody := [] }
        .ok .ok =
      storeAndRespond (setCorsHeaders "*") "a/b.txt" []
        (.str "application/octet-stream") (.str "empty.bin") .ok .ok) :=
  ⟨⟨⟨rfl, rfl, rfl, rfl, rfl, rfl, rfl⟩,
    (c4_amended_empty_payload _ .ok .ok (.arr [.str "x.txt"])).1
      ⟨rfl, rfl, rfl, rfl, rfl, rfl, rfl⟩ rfl rfl⟩,
   ⟨⟨rfl, rfl, rfl, rfl, rfl, rfl⟩,
    (c4_amended_empty_payload _ .ok .ok (.arr [.str "a", .str "b.txt"])).2
      { buffer := [], originalname := "empty.bin",
        mimetype := "application/octet-stream" }
      ⟨rfl, rfl, rfl, rfl, rfl, rfl⟩ rfl rfl⟩⟩

/-- C5 (counterexample): a JSON request whose path is the invalid `[]` and
whose `file` field is the number `5` is answered with the decode error
`Invalid base64 file data`, not with a path-validation error — the payload
decode at line 185 runs (and its failure is surfaced) before path validation
at lines 194-203, contradicting the claimed Validated-before-Decoded
order. -/
theorem c5_counterexample_decode_first :
    specPathOk (.arr []) = false ∧
    uploadAsset
      { method := "POST", contentType := "application/json",
        multerErr := none, formPath := none, formPathParsed := none, file := none,
        jsonBody := [("path", .arr []), ("file", .num 5)] }
      .ok .ok =
    (errorResponse (setCorsHeaders "*") 400 "Invalid base64 file data" none, []) ∧
    isPathError (RespBody.jsonErr "Invalid base64 file data" none) = false :=
  ⟨rfl, rfl, rfl⟩

/-- C5 (amended): payload decoding precedes path validation in both
branches: a multer failure in the multipart branch, and a base64-decode
throw in the JSON branch, are surfaced no matter whether the provided path
is valid or not. -/
theorem c5_amended_decode_precedes_validation (req : HttpRequest)
    (sO pO : StoreOutcome) :
    (∀ m, req.method = "POST" →
      jsIncludes req.contentType "multipart/form-data" = true →
      req.multerErr = some m →
      uploadAsset req sO pO =
        (errorResponse (setCorsHeaders "*") 400 "File upload error" (some m), [])) ∧
    (req.method = "POST" →
      jsIncludes req.contentType "multipart/form-data" = false →
      jsIncludes req.contentType "application/json" = true →
      (getField req.jsonBody "path").truthy = true →
      (getField req.jsonBody "file").truthy = true →
      bufferFromBase64 (getField req.jsonBody "file") = none →
      uploadAsset req sO pO =
        (errorResponse (setCorsHeaders "*") 400 "Invalid base64 file data" none, [])) := by
  constructor
  · intro m hm hct hme
    rw [uploadAsset_multipart req sO pO hm hct]
    unfold multipartBranch
    rw [hme]
  · intro hm hct hj ht hft hb
    rw [uploadAsset_json req sO pO hm hct hj]
    unfold jsonBranch
    dsimp only
    rw [ht, hft, hb]
    rfl

/-- Witness for C5 (amended): concrete requests exercising both conjuncts —
a failed multer callback, and a JSON body whose `file` field is a number. -/
theorem c5_amended_decode_precedes_validation_witness :
    (uploadAsset
        { method := "POST", contentType := "multipart/form-data",
          multerErr := some "File too large", formPath := some "[]",
          formPathParsed := some (.arr []), file := none, jsonBody := [] }
        .ok .ok =
      (errorResponse (setCorsHeaders "*") 400 "File upload error"
        (some "File too large"), [])) ∧
    (uploadAsset
        { method := "POST", contentType := "application/json",
          multerErr := none, formPath := none, formPathParsed := none, file := none,
          jsonBody := [("path", .arr []), ("file", .num 5)] }
        .ok .ok =
      (errorResponse (setCorsHeaders "*") 400 "Invalid base64 file data" none, [])) :=
  ⟨(c5_amended_decode_precedes_validation
      { method := "POST", contentType := "multipart/form-data",
        multerErr := some "File too large", formPath := some "[]",
        formPathParsed := some (.arr []), file := none, jsonBody := [] }
      .ok .ok).1 "File too large" rfl rfl rfl,
   (c5_amended_decode_precedes_validation
      { method := "POST", contentType := "application/json",
        multerErr := none, formPath := none, formPathParsed := none, file := none,
        jsonBody := [("path", .arr []), ("file", .num 5)] }
      .ok .ok).2 rfl rfl rfl rfl rfl rfl⟩

/-- C6 (counterexample): the segment `"a/b"` contains the path separator,
yet the request passes validation and succeeds, and the stored key
`"a/b/c.txt"` contains two separators although only two segments were given
— the claimed rejection of separator-bearing segments does not exist in the
validation loop. -/
theorem c6_counterexample_slash_segment :
    jsIncludes "a/b" "/" = true ∧
    uploadAsset
      { method := "POST", contentType := "application/json",
        multerErr := none, formPath := none, formPathParsed := none, file := none,
        jsonBody := [("path", .arr [.str "a/b", .str "c.txt"]),
                     ("file", .str "QUJD")] }
      .ok .ok =
    (successResponse (setCorsHeaders "*")
      (some { bucket := BUCKET_NAME
              filePath := "a/b/c.txt"
              publicUrl :=
                "https://storage.googleapis.com/espaze-seller-product-assets/a/b/c.txt"
              size := 3
              mimeType := .str "application/octet-stream" })
      (some "File uploaded successfully"),
     [StoreOp.put ⟨"a/b/c.txt", [65, 66, 67],
        .str "application/octet-stream", .str "file"⟩,
      StoreOp.makePublic "a/b/c.txt"]) ∧
    "a/b/c.txt".toList.count '/' = 2 :=
  ⟨rfl, rfl, rfl⟩

/-- C6 (amended): path validation does not inspect segment contents beyond
trimmed-non-emptiness — a path of non-empty string segments passes
validation even when a segment contains `/`, and the stored key is then the
plain `/`-join, so such a segment introduces additional nesting levels. -/
theorem c6_amended_slash_segments_accepted (req : HttpRequest)
    (sO pO : StoreOutcome) (segs : List String)
    (hv : reachesValidation req (.arr (segs.map .str)))
    (hne : segs ≠ []) (hall : ∀ s ∈ segs, jsTrim s ≠ "")
    (hslash : ∃ s ∈ segs, jsIncludes s "/" = true) :
    isPathError (uploadAsset req sO pO).1.body = false ∧
    (∀ p, StoreOp.put p ∈ (uploadAsset req sO pO).2 →
      p.key = String.intercalate "/" segs) := by
  have hok : specPathOk (.arr (segs.map .str)) = true := specPathOk_strings segs hne hall
  obtain ⟨hiff, hconc⟩ := uploadAsset_validation req sO pO (.arr (segs.map .str)) hv
  exact ⟨hiff.mpr hok,
    fun p hp => by rw [(hconc hok).2 p hp, joinedKey_strings]⟩

/-- Witness for C6 (amended): the segment list `["a/b", "c.txt"]`, whose
first segment contains `/`, is accepted and keyed `"a/b/c.txt"`. -/
theorem c6_amended_slash_segments_accepted_witness :
    (∀ s ∈ ["a/b", "c.txt"], jsTrim s ≠ "") ∧
    (∃ s ∈ ["a/b", "c.txt"], jsIncludes s "/" = true) ∧
    (isPathError (uploadAsset
        { method := "POST", contentType := "application/json",
          multerErr := none, formPath := none, formPathParsed := none, file := none,
          jsonBody := [("path", .arr [.str "a/b", .str "c.txt"]),
                       ("file", .str "QUJD")] }
        .ok .ok).1.body = false ∧
      (∀ p, StoreOp.put p ∈ (uploadAsset
          { method := "POST", contentType := "application/json",
            multerErr := none, formPath := none, formPathParsed := none, file := none,
            jsonBody := [("path", .arr [.str "a/b", .str "c.txt"]),
                         ("file", .str "QUJD")] }
          .ok .ok).2 →
        p.key = String.intercalate "/" ["a/b", "c.txt"])) :=
  ⟨by decide, ⟨"a/b", by simp, rfl⟩,
   c6_amended_slash_segments_accepted
     { method := "POST", contentType := "application/json",
       multerErr := none, formPath := none, formPathParsed := none, file := none,
       jsonBody := [("path", .arr [.str "a/b", .str "c.txt"]),
                    ("file", .str "QUJD")] }
     .ok .ok ["a/b", "c.txt"]
     (Or.inr ⟨rfl, rfl, rfl, rfl, rfl, rfl, rfl⟩)
     (by decide) (by decide) ⟨"a/b", by simp, rfl⟩⟩

/-- C7: for every request (in either branch) that reaches the store call, a
store failure with error code 404 — from `file.save` or from
`file.makePublic` — yields HTTP 404 with a message naming the bucket, code
403 yields HTTP 403, and any other store fault yields HTTP 500 with the
generic `Failed to upload file` message. -/
theorem c7_store_error_mapping (req : HttpRequest) (v : JsVal) (c : Option Int)
    (m : String) (o : StoreOutcome) (h : reachesStore req v) :
    (uploadAsset req (.err c m) o).1 = storeCatch (setCorsHeaders "*") c m ∧
    (uploadAsset req .ok (.err c m)).1 = storeCatch (setCorsHeaders "*") c m ∧
    (storeCatch (setCorsHeaders "*") c m).status =
      (if c = some 404 then 404 else if c = some 403 then 403 else 500) ∧
    (c = some 404 →
      (storeCatch (setCorsHeaders "*") c m).body =
        .jsonErr "Bucket 'espaze-seller-product-assets' not found. Please create it first." none ∧
      jsIncludes
        "Bucket 'espaze-seller-product-assets' not found. Please create it first."
        BUCKET_NAME = true) ∧
    (c = some 403 →
      (storeCatch (setCorsHeaders "*") c m).body =
        .jsonErr "Permission denied. Check service account permissions." none) ∧
    (c ≠ some 404 → c ≠ some 403 →
      (storeCatch (setCorsHeaders "*") c m).body =
        .jsonErr "Failed to upload file" (some m)) := by
  obtain ⟨buf, mt, fn, heq⟩ := uploadAsset_reachesStore req (.err c m) o v h
  obtain ⟨buf', mt', fn', heq'⟩ := uploadAsset_reachesStore req .ok (.err c m) v h
  refine ⟨by rw [heq]; rfl, by rw [heq']; rfl, storeCatch_status _ c m, ?_, ?_, ?_⟩
  · rintro rfl
    exact ⟨rfl, rfl⟩
  · rintro rfl
    rfl
  · intro h404 h403
    simp [storeCatch, h404, h403, errorResponse]

/-- Witness for C7: a JSON request that reaches the store, with a missing
bucket (code 404) on save: the response maps to HTTP 404 naming the
bucket. -/
theorem c7_store_error_mapping_witness :
    reachesStore
      { method := "POST", contentType := "application/json",
        multerErr := none, formPath := none, formPathParsed := none, file := none,
        jsonBody := [("path", .arr [.str "x.txt"]), ("file", .str "QUJD")] }
      (.arr [.str "x.txt"]) ∧
    (uploadAsset
      { method := "POST", contentType := "application/json",
        multerErr := none, formPath := none, formPathParsed := none, file := none,
        jsonBody := [("path", .arr [.str "x.txt"]), ("file", .str "QUJD")] }
      (.err (some 404) "boom") .ok).1 =
      storeCatch (setCorsHeaders "*") (some 404) "boom" :=
  ⟨⟨rfl, Or.inr ⟨⟨rfl, rfl, rfl, rfl, rfl, rfl, rfl⟩,
      [65, 66, 67], rfl, by decide⟩⟩,
   (c7_store_error_mapping
     { method := "POST", contentType := "application/json",
       multerErr := none, formPath := none, formPathParsed := none, file := none,
       jsonBody := [("path", .arr [.str "x.txt"]), ("file", .str "QUJD")] }
     (.arr [.str "x.txt"]) (some 404) "boom" .ok
     ⟨rfl, Or.inr ⟨⟨rfl, rfl, rfl, rfl, rfl, rfl, rfl⟩,
        [65, 66, 67], rfl, by decide⟩⟩).1⟩

/-- C8: when the store write succeeds and the subsequent `makePublic` call
fails, the caller receives an error response (non-success body, status ≥
400), yet the performed operations are exactly the single `put` of the
object, which — replayed on any store state — leaves the object stored under
its key: there is no rollback or compensating delete. -/
theorem c8_publish_failure_keeps_object (req : HttpRequest) (v : JsVal)
    (c : Option Int) (m : String) (σ : Store) (h : reachesStore req v) :
    isSuccessBody (uploadAsset req .ok (.err c m)).1.body = false ∧
    400 ≤ (uploadAsset req .ok (.err c m)).1.status ∧
    ∃ p, (uploadAsset req .ok (.err c m)).2 = [StoreOp.put p] ∧
      p.key = joinedKey v ∧
      (applyOps σ (uploadAsset req .ok (.err c m)).2).lookup p.key = some p.bytes := by
  obtain ⟨buf, mt, fn, heq⟩ := uploadAsset_reachesStore req .ok (.err c m) v h
  rw [heq]
  refine ⟨storeCatch_not_success _ c m, ?_, ⟨joinedKey v, buf, mt, fn⟩, rfl, rfl, ?_⟩
  · show 400 ≤ (storeCatch (setCorsHeaders "*") c m).status
    rw [storeCatch_status]
    split
    · omega
    · split
      · omega
      · omega
  · simp [applyOps, applyOp, storeAndRespond, List.lookup]

/-- Witness for C8: a concrete JSON upload whose `makePublic` fails with a
generic fault: the response is an error but the object stays stored. -/
theorem c8_publish_failure_keeps_object_witness :
    reachesStore
      { method := "POST", contentType := "application/json",
        multerErr := none, formPath := none, formPathParsed := none, file := none,
        jsonBody := [("path", .arr [.str "x.txt"]), ("file", .str "QUJD")] }
      (.arr [.str "x.txt"]) ∧
    (isSuccessBody (uploadAsset
        { method := "POST", contentType := "application/json",
          multerErr := none, formPath := none, formPathParsed := none, file := none,
          jsonBody := [("path", .arr [.str "x.txt"]), ("file", .str "QUJD")] }
        .ok (.err none "network down")).1.body = false ∧
      400 ≤ (uploadAsset
        { method := "POST", contentType := "application/json",
          multerErr := none, formPath := none, formPathParsed := none, file := none,
          jsonBody := [("path", .arr [.str "x.txt"]), ("file", .str "QUJD")] }
        .ok (.err none "network down")).1.status ∧
      ∃ p, (uploadAsset
          { method := "POST", contentType := "application/json",
            multerErr := none, formPath := none, formPathParsed := none, file := none,
            jsonBody := [("path", .arr [.str "x.txt"]), ("file", .str "QUJD")] }
          .ok (.err none "network down")).2 = [StoreOp.put p] ∧
        p.key = joinedKey (.arr [.str "x.txt"]) ∧
        (applyOps [] (uploadAsset
            { method := "POST", contentType := "application/json",
              multerErr := none, formPath := none, formPathParsed := none, file := none,
              jsonBody := [("path", .arr [.str "x.txt"]), ("file", .str "QUJD")] }
            .ok (.err none "network down")).2).lookup p.key = some p.bytes) :=
  ⟨⟨rfl, Or.inr ⟨⟨rfl, rfl, rfl, rfl, rfl, rfl, rfl⟩,
      [65, 66, 67], rfl, by decide⟩⟩,
   c8_publish_failure_keeps_object
     { method := "POST", contentType := "application/json",
       multerErr := none, formPath := none, formPathParsed := none, file := none,
       jsonBody := [("path", .arr [.str "x.txt"]), ("file", .str "QUJD")] }
     (.arr [.str "x.txt"]) none "network down" []
     ⟨rfl, Or.inr ⟨⟨rfl, rfl, rfl, rfl, rfl, rfl, rfl⟩,
        [65, 66, 67], rfl, by decide⟩⟩⟩

/-- C9: a POST whose content-type contains neither `multipart/form-data` nor
`application/json` is answered with HTTP 400 and the unsupported-content-type
error message, and no store operation is performed. -/
theorem c9_unsupported_content_type (req : HttpRequest) (sO pO : StoreOutcome)
    (hm : req.method = "POST")
    (h1 : jsIncludes req.contentType "multipart/form-data" = false)
    (h2 : jsIncludes req.contentType "application/json" = false) :
    uploadAsset req sO pO =
      (errorResponse (setCorsHeaders "*") 400
        "Content-Type must be multipart/form-data or application/json" none, []) := by
  unfold uploadAsset
  dsimp only
  rw [hm, h1, h2]
  rfl

/-- Witness for C9: `Content-Type: text/xml` is dispatched to neither branch
and is rejected with 400 and no store write. -/
theorem c9_unsupported_content_type_witness :
    jsIncludes "text/xml" "multipart/form-data" = false ∧
    jsIncludes "text/xml" "application/json" = false ∧
    uploadAsset
      { method := "POST", contentType := "text/xml",
        multerErr := none, formPath := none, formPathParsed := none, file := none,
        jsonBody := [] }
      .ok .ok =
    (errorResponse (setCorsHeaders "*") 400
      "Content-Type must be multipart/form-data or application/json" none, []) :=
  ⟨rfl, rfl,
   c9_unsupported_content_type
     { method := "POST", contentType := "text/xml",
       multerErr := none, formPath := none, formPathParsed := none, file := none,
       jsonBody := [] }
     .ok .ok rfl rfl rfl⟩

/-- C10: every response the handler emits — preflight, success, and every
error of either branch — carries the CORS headers set unconditionally at
entry: `Access-Control-Allow-Origin: *`, the allowed methods, and the
allowed headers. -/
theorem c10_cors_headers_always (req : HttpRequest) (sO pO : StoreOutcome) :
    (uploadAsset req sO pO).1.headers = setCorsHeaders "*" ∧
    ("Access-Control-Allow-Origin", "*") ∈ (uploadAsset req sO pO).1.headers ∧
    ("Access-Control-Allow-Methods", "GET, POST, PUT, DELETE, OPTIONS") ∈
      (uploadAsset req sO pO).1.headers ∧
    ("Access-Control-Allow-Headers", "Content-Type, Authorization") ∈
      (uploadAsset req sO pO).1.headers := by
  have h := uploadAsset_headers req sO pO
  refine ⟨h, ?_, ?_, ?_⟩ <;> rw [h] <;> simp [setCorsHeaders]

end GcsUpload
